import Mathlib

/-!
Verification of the clause-traversal engine of the `agent-api` repository.

The development shallowly embeds the Python sources:

* `src/tools/document_tools.py` (namespace `DocTools`) — the async
  template/DB-backed engine: `start_document_creation`,
  `process_clause_response`, `complete_document`;
* `src/database/nda_database.py` (namespace `NdaDatabase`) — the CRUD layer
  backing those tools, modelled as pure functions over an in-memory table set;
* `src/agents/nilo/tools/nda_creator_agent_tools.py` (namespace `AgentTools`)
  — the session-state agent tools: `process_clause_response`,
  `skip_optional_clause`, `proceed_to_next_clause`, `complete_nda_document`,
  `_validate_response`;
* `src/agents/nilo/workflows/document_creation_workflow.py` (namespace
  `Workflow`) — `_validate_and_fill_clause`.

Modelling conventions: Python `dict` values are insertion-ordered association
lists (`List (String × String)` and friends); database tables are lists of
rows, with `SERIAL` ids modelled as `max id + 1`; `raise ValueError(msg)`
becomes `Except.error msg`; SQL `NOW()` / `CURRENT_TIMESTAMP` is an explicit
`now : String` argument; `re.search(p, s, re.IGNORECASE)` is an abstract
parameter `rmatch : String → String → Bool` (the regex engine is an external
collaborator).  Timestamp columns that are never read by the embedded logic
are omitted from row structures.
-/

/-- Prefix test on character lists: does the first list start the second? -/
def startsWithChars : List Char → List Char → Bool
  | [], _ => true
  | _ :: _, [] => false
  | a :: as, b :: bs => a == b && startsWithChars as bs

/-- Substring test on character lists: does `needle` occur inside `haystack`?
Mirrors the semantics of the Python `in` operator on `str` (the empty needle
occurs in every string). -/
def hasSubChars (needle : List Char) : List Char → Bool
  | [] => startsWithChars needle []
  | b :: bs => startsWithChars needle (b :: bs) || hasSubChars needle bs

/-- Python `needle in haystack` on strings. -/
def pyIn (needle haystack : String) : Bool :=
  hasSubChars needle.data haystack.data

/-- Python `str.lower()` (the sources only ever lower ASCII rule words). -/
def pyLower (s : String) : String :=
  ⟨s.data.map Char.toLower⟩

/-- Python `str.strip()` with no argument: trim whitespace on both ends. -/
def pyStrip (s : String) : String :=
  ⟨((s.data.dropWhile Char.isWhitespace).reverse.dropWhile Char.isWhitespace).reverse⟩

/-- One left-to-right non-overlapping replacement pass over character lists,
as performed by Python `str.replace`.  The sources only ever replace nonempty
patterns (brace-wrapped placeholder names), so the empty-pattern behaviour is
irrelevant; here an empty pattern replaces nothing. -/
def replChars (pat rep : List Char) : Nat → List Char → List Char
  | _, [] => []
  | 0, l => l
  | fuel + 1, c :: rest =>
    if !pat.isEmpty && startsWithChars pat (c :: rest) then
      rep ++ replChars pat rep fuel (rest.drop (pat.length - 1))
    else
      c :: replChars pat rep fuel rest

/-- Python `s.replace(pat, rep)` (replace every occurrence).  The fuel
argument of `replChars` is the remaining haystack length; every step consumes
at least one character, so starting it at the full length is exact. -/
def pyReplace (s pat rep : String) : String :=
  ⟨replChars pat.data rep.data s.data.length s.data⟩

/-- Python dict lookup `d.get(k)` on a string-valued dict. -/
def dictGet (d : List (String × String)) (k : String) : Option String :=
  (d.find? (fun kv => kv.1 == k)).map (fun kv => kv.2)

/-- Python `k in d` on a dict. -/
def dictContains (d : List (String × String)) (k : String) : Bool :=
  d.any (fun kv => kv.1 == k)

/-- Python `d[k] = v`: overwrite in place when the key exists (keeping its
position), otherwise append the new pair at the end (insertion order). -/
def dictSet (d : List (String × String)) (k v : String) : List (String × String) :=
  if dictContains d k then
    d.map (fun kv => if kv.1 == k then (kv.1, v) else kv)
  else
    d ++ [(k, v)]

/-- Structured form of one alert-condition entry, i.e. the value dict
`\x7b"type": ..., "value": ..., "message": ...\x7d` attached to a condition name in
`clause.alert_conditions`.  The Python code normalises a scalar `value` to a
one-element list for the word/term conditions (`value if isinstance(value,
list) else [value]`), which the list-typed constructors absorb.  `message` is
`Option`al because `_validate_response` falls back to a default via
`condition_data.get("message", ...)`.  A `type` string with no matching
branch in `_validate_response` is represented by `other` and is skipped. -/
inductive AlertCond where
  | contains_forbidden_words (words : List String) (message : Option String)
  | min_length (n : Nat) (message : Option String)
  | max_length (n : Nat) (message : Option String)
  | required_pattern (pattern : String) (message : Option String)
  | must_contain (terms : List String) (message : Option String)
  | other (ctype : String) (message : Option String)
deriving DecidableEq

/-- Result dict of `_validate_response`: `\x7b"valid": ..., "message": ...\x7d`. -/
structure ValidationResult where
  valid : Bool
  message : String
deriving DecidableEq

/-- The message a condition uses: its own `message` value, or the
`_validate_response` default `f"Alert condition '\x7bcondition_name\x7d' triggered"`. -/
def alertMessage (condition_name : String) : Option String → String
  | some m => m
  | none => "Alert condition \x27" ++ condition_name ++ "\x27 triggered"

/-- One iteration of the `_validate_response` loop body: `some failureMessage`
when the condition rejects the response (the early `return`), `none` when the
loop falls through to the next condition.  `rmatch` stands for
`re.search(pattern, response, re.IGNORECASE)`. -/
def check_condition (rmatch : String → String → Bool) (condition_name : String)
    (response response_lower : String) : AlertCond → Option String
  | .contains_forbidden_words words msg =>
    match words.find? (fun word => pyIn (pyLower word) response_lower) with
    | some word =>
      some (alertMessage condition_name msg ++ "\n\nForbidden word detected: \x27" ++ word ++ "\x27")
    | none => none
  | .min_length n msg =>
    if (pyStrip response).length < n then
      some (alertMessage condition_name msg ++ "\n\nMinimum length required: " ++ toString n ++ " characters")
    else none
  | .max_length n msg =>
    if n < (pyStrip response).length then
      some (alertMessage condition_name msg ++ "\n\nMaximum length allowed: " ++ toString n ++ " characters")
    else none
  | .required_pattern pattern msg =>
    if rmatch pattern response then none
    else some (alertMessage condition_name msg ++ "\n\nRequired pattern not found: " ++ pattern)
  | .must_contain terms msg =>
    match terms.find? (fun term => !(pyIn (pyLower term) response_lower)) with
    | some term =>
      some (alertMessage condition_name msg ++ "\n\nRequired term missing: \x27" ++ term ++ "\x27")
    | none => none
  | .other _ _ => none

/-- The `for condition_name, condition_data in clause.alert_conditions.items()`
loop of `_validate_response`: first failing condition short-circuits. -/
def run_alert_conditions (rmatch : String → String → Bool)
    (response response_lower : String) : List (String × AlertCond) → ValidationResult
  | [] => ⟨true, ""⟩
  | (condition_name, cond) :: rest =>
    match check_condition rmatch condition_name response response_lower cond with
    | some m => ⟨false, m⟩
    | none => run_alert_conditions rmatch response response_lower rest

/-- `_validate_response(self, response, clause)` from
`nda_creator_agent_tools.py`, as a function of the response and the clause
alert-condition dict.  An empty dict is falsy, so it is trivially valid;
otherwise `response_lower = response.lower().strip()` is precomputed and the
conditions run in declaration order. -/
def validate_response (rmatch : String → String → Bool) (response : String)
    (alert_conditions : List (String × AlertCond)) : ValidationResult :=
  if alert_conditions.isEmpty then ⟨true, ""⟩
  else run_alert_conditions rmatch response (pyStrip (pyLower response)) alert_conditions

namespace NdaDatabase

/-- Row of `public.doc_templates` (`models/doc_template.py`), timestamps
omitted (never read by the embedded tools). -/
structure DocTemplate where
  id : Nat
  agent_id : String
  name : String
  description : String
  active : Bool
deriving DecidableEq

/-- Value dict of one `placeholders` entry: `\x7b"required": ..., "description":
...\x7d`, per the uses in `document_creation_workflow.py`. -/
structure PlaceholderSpec where
  required : Bool
  description : String
deriving DecidableEq

/-- Row of `public.template_clauses` (`models/template_clause.py`), timestamps
omitted.  `type` is the string `"mandatory"` or `"optional"`;
`validation_rules` and `placeholders` are JSON-dict columns, modelled as
insertion-ordered association lists. -/
structure TemplateClause where
  id : Nat
  doc_template_id : Nat
  section_name : String
  order_num : Nat
  type : String
  system_prompt : String
  content_template : Option String
  validation_rules : List (String × AlertCond)
  placeholders : List (String × PlaceholderSpec)
deriving DecidableEq

/-- Row of `public.live_documents` (`models/live_document.py`), timestamps
omitted.  `status` is `"in_progress"`, `"completed"` or `"paused"`. -/
structure LiveDocument where
  id : Nat
  user_id : String
  doc_template_id : Nat
  content : List (String × String)
  status : String
  current_clause_order : Nat
deriving DecidableEq

/-- The tables behind `NDADatabaseCrud` (`database/nda_database.py`). -/
structure NdaDB where
  doc_templates : List DocTemplate
  template_clauses : List TemplateClause
  live_documents : List LiveDocument
deriving DecidableEq

/-- `get_template_by_id`: `SELECT ... FROM doc_templates WHERE id = $1`. -/
def get_template_by_id (db : NdaDB) (template_id : Nat) : Option DocTemplate :=
  db.doc_templates.find? (fun t => t.id == template_id)

/-- `get_clauses_by_template` with the default `order_by='order_num'`:
`SELECT ... WHERE doc_template_id = $1 ORDER BY order_num`.  Row order among
equal `order_num`s is unspecified in SQL; the stable sort keeps table order. -/
def get_clauses_by_template (db : NdaDB) (template_id : Nat) : List TemplateClause :=
  List.insertionSort (fun a b => a.order_num ≤ b.order_num)
    (db.template_clauses.filter (fun c => c.doc_template_id == template_id))

/-- `get_live_document_by_id`: `SELECT ... FROM live_documents WHERE id = $1`. -/
def get_live_document_by_id (db : NdaDB) (doc_id : Nat) : Option LiveDocument :=
  db.live_documents.find? (fun d => d.id == doc_id)

/-- Fresh `SERIAL` primary key for an insert into `live_documents`. -/
def next_document_id (db : NdaDB) : Nat :=
  db.live_documents.foldl (fun m d => max m d.id) 0 + 1

/-- `create_live_document`: inserts a row with `content = \x7b\x7d`,
`status = 'in_progress'` and `current_clause_order = 1` (all three are
hard-coded in the `INSERT` call) and returns it. -/
def create_live_document (db : NdaDB) (user_id : String) (template_id : Nat) :
    LiveDocument × NdaDB :=
  let doc : LiveDocument :=
    { id := next_document_id db
      user_id := user_id
      doc_template_id := template_id
      content := []
      status := "in_progress"
      current_clause_order := 1 }
  (doc, { db with live_documents := db.live_documents ++ [doc] })

/-- `update_live_document_content`: `UPDATE live_documents SET content = $1,
current_clause_order = $2 WHERE id = $3 RETURNING ...`.  `none` when no row
matches (the Python would then crash on the absent `RETURNING` row). -/
def update_live_document_content (db : NdaDB) (doc_id : Nat)
    (content : List (String × String)) (current_clause_order : Nat) :
    Option (LiveDocument × NdaDB) :=
  (get_live_document_by_id db doc_id).map (fun d =>
    ({ d with content := content, current_clause_order := current_clause_order },
     { db with
        live_documents := db.live_documents.map (fun x =>
          if x.id == doc_id then
            { x with content := content, current_clause_order := current_clause_order }
          else x) }))

/-- `complete_document` (the CRUD method): `UPDATE live_documents SET status =
'completed' WHERE id = $1 RETURNING ...`. -/
def complete_document (db : NdaDB) (doc_id : Nat) : Option (LiveDocument × NdaDB) :=
  (get_live_document_by_id db doc_id).map (fun d =>
    ({ d with status := "completed" },
     { db with
        live_documents := db.live_documents.map (fun x =>
          if x.id == doc_id then { x with status := "completed" } else x) }))

end NdaDatabase

namespace DocTools

open NdaDatabase

/-- Pydantic `ClauseInfo` from `tools/document_tools.py`. -/
structure ClauseInfo where
  id : Nat
  section_name : String
  order_num : Nat
  type : String
  system_prompt : String
  content_template : Option String
  placeholders : List (String × PlaceholderSpec)
deriving DecidableEq

/-- The `progress` dict built by the tools (all values are ints). -/
structure Progress where
  current_clause : Nat
  total_clauses : Nat
  mandatory_clauses : Nat
  completed_clauses : Nat
  percentage : Nat
deriving DecidableEq

/-- Pydantic `DocumentInfo` from `tools/document_tools.py`. -/
structure DocumentInfo where
  id : Nat
  template_id : Nat
  template_name : String
  current_clause : ClauseInfo
  content : List (String × String)
  status : String
  progress : Progress
deriving DecidableEq

/-- The `ClauseInfo(...)` construction repeated in the tools: copy the clause
row fields shown to the caller. -/
def clause_info_of (c : TemplateClause) : ClauseInfo :=
  { id := c.id
    section_name := c.section_name
    order_num := c.order_num
    type := c.type
    system_prompt := c.system_prompt
    content_template := c.content_template
    placeholders := c.placeholders }

/-- `start_document_creation(db_url, user_id, template_id)`.  Raises when the
template is unknown or has no clauses; otherwise inserts a fresh live
document and reports the first clause of the `ORDER BY order_num` list. -/
def start_document_creation (db : NdaDB) (user_id : String) (template_id : Nat) :
    Except String (DocumentInfo × NdaDB) :=
  match get_template_by_id db template_id with
  | none => .error ("Template não encontrado: " ++ toString template_id)
  | some template =>
    match get_clauses_by_template db template_id with
    | [] => .error ("Template sem cláusulas: " ++ toString template_id)
    | first_clause :: clauses_rest =>
      let clauses := first_clause :: clauses_rest
      let (live_doc, db2) := create_live_document db user_id template_id
      let total_clauses := clauses.length
      let mandatory_clauses := (clauses.filter (fun c => c.type == "mandatory")).length
      let progress : Progress :=
        { current_clause := 1
          total_clauses := total_clauses
          mandatory_clauses := mandatory_clauses
          completed_clauses := 0
          percentage := 0 }
      .ok
        ({ id := live_doc.id
           template_id := template.id
           template_name := template.name
           current_clause := clause_info_of first_clause
           content := []
           status := live_doc.status
           progress := progress }, db2)

/-- `process_clause_response(db_url, doc_id, clause_id, user_response,
filled_content)`.  Resolves the clause by the caller-supplied `clause_id`,
stores `filled_content` under its `section_name`, then looks for the clause
with `order_num == current_clause.order_num + 1`: if none exists the document
is marked completed (note: the enlarged `content` is not persisted on that
branch), otherwise content and cursor are persisted in one `UPDATE`.
`user_response` is accepted but never stored.  The inner `.error` branches
after a successful document lookup are unreachable re-raises. -/
def process_clause_response (db : NdaDB) (doc_id clause_id : Nat)
    (user_response filled_content : String) : Except String (DocumentInfo × NdaDB) :=
  match get_live_document_by_id db doc_id with
  | none => .error ("Documento não encontrado: " ++ toString doc_id)
  | some live_doc =>
  match get_template_by_id db live_doc.doc_template_id with
  | none => .error ("Template não encontrado: " ++ toString live_doc.doc_template_id)
  | some template =>
  match get_clauses_by_template db template.id with
  | [] => .error ("Template sem cláusulas: " ++ toString template.id)
  | c0 :: clauses_rest =>
  let clauses := c0 :: clauses_rest
  match clauses.find? (fun c => c.id == clause_id) with
  | none => .error ("Cláusula não encontrada: " ++ toString clause_id)
  | some current_clause =>
  let content := dictSet live_doc.content current_clause.section_name filled_content
  let next_clause_order := current_clause.order_num + 1
  match clauses.find? (fun c => c.order_num == next_clause_order) with
  | none =>
    match NdaDatabase.complete_document db doc_id with
    | none => .error ("Documento não encontrado: " ++ toString doc_id)
    | some (_, db2) =>
    match get_live_document_by_id db2 doc_id with
    | none => .error ("Documento não encontrado: " ++ toString doc_id)
    | some live_doc2 =>
      let total_clauses := clauses.length
      let mandatory_clauses := (clauses.filter (fun c => c.type == "mandatory")).length
      let completed_clauses := content.length
      let progress : Progress :=
        { current_clause := total_clauses
          total_clauses := total_clauses
          mandatory_clauses := mandatory_clauses
          completed_clauses := completed_clauses
          percentage := 100 }
      .ok
        ({ id := live_doc2.id
           template_id := template.id
           template_name := template.name
           current_clause := clause_info_of current_clause
           content := content
           status := live_doc2.status
           progress := progress }, db2)
  | some next_clause =>
    match update_live_document_content db doc_id content next_clause.order_num with
    | none => .error ("Documento não encontrado: " ++ toString doc_id)
    | some (live_doc3, db2) =>
      let total_clauses := clauses.length
      let mandatory_clauses := (clauses.filter (fun c => c.type == "mandatory")).length
      let completed_clauses := content.length
      let percentage := completed_clauses * 100 / total_clauses
      let progress : Progress :=
        { current_clause := next_clause.order_num
          total_clauses := total_clauses
          mandatory_clauses := mandatory_clauses
          completed_clauses := completed_clauses
          percentage := percentage }
      .ok
        ({ id := live_doc3.id
           template_id := template.id
           template_name := template.name
           current_clause := clause_info_of next_clause
           content := content
           status := live_doc3.status
           progress := progress }, db2)

/-- `complete_document(db_url, doc_id)` — the finalize tool.  Iterates the
mandatory clauses in `order_num` order and raises on the first whose
`section_name` is not in `content`; otherwise marks the document completed
and renders the final markdown from the sections present in `content`. -/
def complete_document (db : NdaDB) (doc_id : Nat) : Except String (String × NdaDB) :=
  match get_live_document_by_id db doc_id with
  | none => .error ("Documento não encontrado: " ++ toString doc_id)
  | some live_doc =>
  match get_template_by_id db live_doc.doc_template_id with
  | none => .error ("Template não encontrado: " ++ toString live_doc.doc_template_id)
  | some template =>
  match get_clauses_by_template db template.id with
  | [] => .error ("Template sem cláusulas: " ++ toString template.id)
  | c0 :: clauses_rest =>
  let clauses := c0 :: clauses_rest
  let content := live_doc.content
  let mandatory_clauses := clauses.filter (fun c => c.type == "mandatory")
  match mandatory_clauses.find? (fun c => !(dictContains content c.section_name)) with
  | some clause => .error ("Cláusula obrigatória não preenchida: " ++ clause.section_name)
  | none =>
    match NdaDatabase.complete_document db doc_id with
    | none => .error ("Documento não encontrado: " ++ toString doc_id)
    | some (_, db2) =>
      let document := clauses.foldl (fun acc clause =>
        if dictContains content clause.section_name then
          acc ++ "## " ++ clause.section_name ++ "\n\n"
            ++ (dictGet content clause.section_name).getD "" ++ "\n\n"
        else acc) ("# " ++ template.name ++ "\n\n")
      .ok (document, db2)

end DocTools

namespace Workflow

/-- `_validate_and_fill_clause(clause, user_response)` from
`document_creation_workflow.py`: when the clause has a (truthy)
`content_template`, substitute `user_response` for every placeholder slot
`\x7bfield_name\x7d` of each declared placeholder; otherwise return the user
response unchanged. -/
def validate_and_fill_clause (clause : DocTools.ClauseInfo) (user_response : String) : String :=
  match clause.content_template with
  | some tmpl =>
    if tmpl.isEmpty then user_response
    else
      if clause.placeholders.isEmpty then tmpl
      else
        clause.placeholders.foldl (fun filled_content kv =>
          let placeholder := "\x7b" ++ kv.1 ++ "\x7d"
          if pyIn placeholder filled_content then
            pyReplace filled_content placeholder user_response
          else filled_content) tmpl
  | none => user_response

end Workflow

namespace AgentTools

/-- `ClauseType` enum from `models/clause_model.py`. -/
inductive ClauseType where
  | MANDATORY
  | OPTIONAL
deriving DecidableEq

/-- `ClauseModel` dataclass (`models/clause_model.py`), timestamps omitted. -/
structure ClauseModel where
  id : Nat
  doc_template_id : Nat
  order_num : Nat
  section_name : String
  type : ClauseType
  type_alternatives : List (String × String)
  alert_conditions : List (String × AlertCond)
  suggestions : List (String × String)
  system_prompt : String
deriving DecidableEq

/-- `DocumentAgentModel` dataclass (`models/document_agent.py`).  The
timestamp columns are kept as opaque strings because
`complete_nda_document` and `_generate_final_document` print them. -/
structure DocumentAgent where
  id : Nat
  doc_template_id : Nat
  content : List (String × String)
  status : String
  current_clause_order : Nat
  created_at : String
  updated_at : String
deriving DecidableEq

/-- `DocTemplateModel` dataclass (`models/doctemplate_model.py`),
timestamps omitted. -/
structure DocTemplateModel where
  id : Nat
  name : String
deriving DecidableEq

/-- The tables behind the agent-side `NDADatabaseCrud`
(`agents/nilo/crud/nda_database_crud.py`). -/
structure AgentDB where
  doc_templates : List DocTemplateModel
  documents_agents : List DocumentAgent
deriving DecidableEq

/-- The mutable session fields the agent tools keep on `self`:
`current_document_id`, `current_template_id`, `current_clauses`,
`current_clause_index`. -/
structure AgentSession where
  current_document_id : Option Nat
  current_template_id : Option Nat
  current_clauses : List ClauseModel
  current_clause_index : Nat
deriving DecidableEq

/-- Python truthiness of an optional integer id (`if not self.current_document_id`):
`None` and `0` are falsy. -/
def py_truthy_id : Option Nat → Bool
  | none => false
  | some n => n != 0

/-- `get_doc_template`: `SELECT * FROM doc_templates WHERE id = %s`. -/
def get_doc_template (db : AgentDB) (template_id : Nat) : Option DocTemplateModel :=
  db.doc_templates.find? (fun t => t.id == template_id)

/-- `get_document_agent`: `SELECT * FROM documents_agents WHERE id = %s`. -/
def get_document_agent (db : AgentDB) (doc_id : Nat) : Option DocumentAgent :=
  db.documents_agents.find? (fun d => d.id == doc_id)

/-- `update_document_agent_content(doc_id, section_name, content,
current_clause_order)`: reads the current content dict, sets
`content[section_name]`, and writes content plus cursor (plus
`updated_at = CURRENT_TIMESTAMP`, the `now` argument) back in one `UPDATE`.
`none` when the row is missing (the Python would crash on `fetchone()`). -/
def update_document_agent_content (db : AgentDB) (doc_id : Nat)
    (section_name content : String) (current_clause_order : Nat) (now : String) :
    Option (DocumentAgent × AgentDB) :=
  (get_document_agent db doc_id).map (fun d =>
    let new_content := dictSet d.content section_name content
    ({ d with content := new_content, current_clause_order := current_clause_order,
              updated_at := now },
     { db with
        documents_agents := db.documents_agents.map (fun x =>
          if x.id == doc_id then
            { x with content := new_content, current_clause_order := current_clause_order,
                     updated_at := now }
          else x) }))

/-- `complete_document_agent`: `UPDATE documents_agents SET status =
'completed', updated_at = CURRENT_TIMESTAMP WHERE id = %s RETURNING *`. -/
def complete_document_agent (db : AgentDB) (doc_id : Nat) (now : String) :
    Option (DocumentAgent × AgentDB) :=
  (get_document_agent db doc_id).map (fun d =>
    ({ d with status := "completed", updated_at := now },
     { db with
        documents_agents := db.documents_agents.map (fun x =>
          if x.id == doc_id then { x with status := "completed", updated_at := now }
          else x) }))

/-- `process_clause_response(self, user_response)` from
`nda_creator_agent_tools.py`.  Guard: no (truthy) document id or index past
the clause list ⇒ the no-active-session message.  Otherwise the current
clause is `self.current_clauses[self.current_clause_index]`; an invalid
response returns the validation alert and touches nothing; a valid response
saves it through `update_document_agent_content` (cursor set to the *current*
clause order) and leaves the session fields unchanged.  The result is
`(returned string, session after, database after)`. -/
def process_clause_response (rmatch : String → String → Bool)
    (st : AgentSession) (db : AgentDB) (user_response : String) (now : String) :
    String × AgentSession × AgentDB :=
  if py_truthy_id st.current_document_id = false then
    ("❌ No active NDA creation session. Please start a new NDA creation.", st, db)
  else if h : st.current_clause_index < st.current_clauses.length then
    let current_clause := st.current_clauses.get ⟨st.current_clause_index, h⟩
    let validation_result := validate_response rmatch user_response current_clause.alert_conditions
    if validation_result.valid = false then
      ("\n⚠️ **Validation Alert**\n\n" ++ validation_result.message
        ++ "\n\nPlease provide a corrected response for: **" ++ current_clause.section_name
        ++ "**\n\n" ++ current_clause.system_prompt ++ "\n", st, db)
    else
      match st.current_document_id with
      | some doc_id =>
        match update_document_agent_content db doc_id current_clause.section_name
            user_response current_clause.order_num now with
        | some (_, db2) =>
          ("\n✅ **Section Completed**: " ++ current_clause.section_name
            ++ "\n\nYour response has been saved: \"" ++ user_response
            ++ "\"\n\nTudo certo nessa seção. Posso seguir para a próxima cláusula?\n",
           st, db2)
        | none =>
          -- fetchone() on a missing row raises; caught by the except branch
          ("❌ Error processing response: document not found", st, db)
      | none =>
        -- unreachable: py_truthy_id was true
        ("❌ No active NDA creation session. Please start a new NDA creation.", st, db)
  else
    ("❌ No active NDA creation session. Please start a new NDA creation.", st, db)

/-- `skip_optional_clause(self, section_name)`: rejects a non-`OPTIONAL`
current clause, then a section-name mismatch, else acknowledges the skip.
None of the branches mutates the session or the database; an out-of-range
index raises `IndexError`, caught by the except branch. -/
def skip_optional_clause (st : AgentSession) (db : AgentDB) (section_name : String) :
    String × AgentSession × AgentDB :=
  if h : st.current_clause_index < st.current_clauses.length then
    let current_clause := st.current_clauses.get ⟨st.current_clause_index, h⟩
    if current_clause.type ≠ ClauseType.OPTIONAL then
      ("❌ Cannot skip mandatory clause: " ++ current_clause.section_name, st, db)
    else if current_clause.section_name ≠ section_name then
      ("❌ Section name mismatch. Expected: " ++ current_clause.section_name, st, db)
    else
      ("✅ Optional clause \x27" ++ section_name
        ++ "\x27 has been skipped. Ready to proceed to the next clause.", st, db)
  else
    ("❌ Error skipping clause: list index out of range", st, db)

/-- `_get_current_clause_prompt(self)`. -/
def get_current_clause_prompt (st : AgentSession) : String :=
  if h : st.current_clause_index < st.current_clauses.length then
    let current_clause := st.current_clauses.get ⟨st.current_clause_index, h⟩
    let prompt := "\n---\n\n**Clause " ++ toString (st.current_clause_index + 1) ++ "/"
      ++ toString st.current_clauses.length ++ "**: " ++ current_clause.section_name
      ++ "\n**Type**: "
      ++ (if current_clause.type = ClauseType.MANDATORY then "🔴 Mandatory" else "🟡 Optional")
      ++ "\n\n"
    let prompt :=
      if current_clause.type = ClauseType.OPTIONAL then
        prompt ++ "❓ **Do you want to include the clause \x27"
          ++ current_clause.section_name ++ "\x27?** (Yes/No)\n\n"
      else prompt
    let prompt := prompt ++ "📝 **" ++ current_clause.system_prompt ++ "**"
    let prompt :=
      if current_clause.suggestions.isEmpty then prompt
      else current_clause.suggestions.foldl
        (fun acc kv => acc ++ "• **" ++ kv.1 ++ "**: " ++ kv.2 ++ "\n")
        (prompt ++ "\n\n💡 **Suggestions**:\n")
    let prompt :=
      if current_clause.type_alternatives.isEmpty then prompt
      else current_clause.type_alternatives.foldl
        (fun acc kv => acc ++ "• **" ++ kv.1 ++ "**: " ++ kv.2 ++ "\n")
        (prompt ++ "\n\n🔄 **Alternative Options**:\n")
    prompt
  else "All clauses completed!"

/-- The constant string `_finalize_document(self)` returns. -/
def finalize_document_message : String :=
  "\n🎯 **All Clauses Completed!**\n\nYou have successfully completed all clauses for this NDA document. \n\nTo finalize and save your document, please confirm by saying \"Complete the document\" or use the complete_nda_document tool.\n\nYou can also use get_document_preview to review the final document before completion.\n"

/-- `proceed_to_next_clause(self)`: increments `current_clause_index`
unconditionally, then either reports all clauses done or prompts for the new
current clause.  Returns `(string, session after)`. -/
def proceed_to_next_clause (st : AgentSession) : String × AgentSession :=
  let st2 := { st with current_clause_index := st.current_clause_index + 1 }
  if st2.current_clauses.length ≤ st2.current_clause_index then
    (finalize_document_message, st2)
  else
    (get_current_clause_prompt st2, st2)

/-- `_generate_final_document(self, doc_agent, template)`. -/
def generate_final_document (st : AgentSession) (doc_agent : DocumentAgent)
    (template : DocTemplateModel) : String :=
  let document := "\n# " ++ template.name ++ "\n\n**Document ID**: " ++ toString doc_agent.id
    ++ "\n**Created**: " ++ doc_agent.created_at
    ++ "\n**Completed**: " ++ doc_agent.updated_at ++ "\n\n---\n"
  let document := st.current_clauses.foldl (fun acc clause =>
    if dictContains doc_agent.content clause.section_name then
      acc ++ "\n## " ++ clause.section_name ++ "\n\n"
        ++ (dictGet doc_agent.content clause.section_name).getD "" ++ "\n\n---\n"
    else acc) document
  document ++ "\n**End of Document**\n\nThis NDA document has been generated using the AGNO NDA Creator system.\n"

/-- `complete_nda_document(self)`: checks for an active session, reloads the
document, and compares completed against declared mandatory clauses.  When
some are missing it lists *all* of them (in `current_clauses` order, which is
`ORDER BY order_num`) and mutates nothing; otherwise it marks the document
completed, renders the final document, and resets the session fields. -/
def complete_nda_document (st : AgentSession) (db : AgentDB) (now : String) :
    String × AgentSession × AgentDB :=
  if py_truthy_id st.current_document_id = false then
    ("❌ No active document session.", st, db)
  else
    match st.current_document_id with
    | none =>
      -- unreachable: py_truthy_id was true
      ("❌ No active document session.", st, db)
    | some doc_id =>
      match get_document_agent db doc_id with
      | none => ("❌ Document not found.", st, db)
      | some doc_agent =>
        let mandatory_clauses := st.current_clauses.filter (fun c => c.type == ClauseType.MANDATORY)
        let completed_mandatory :=
          (mandatory_clauses.filter (fun c => dictContains doc_agent.content c.section_name)).map
            (fun c => c.section_name)
        if completed_mandatory.length < mandatory_clauses.length then
          let missing :=
            (mandatory_clauses.filter (fun c => !(dictContains doc_agent.content c.section_name))).map
              (fun c => c.section_name)
          ("\n❌ **Cannot Complete Document**\n\nMissing mandatory clauses:\n"
            ++ String.intercalate "\n" (missing.map (fun clause => "• " ++ clause))
            ++ "\n\nPlease complete all mandatory clauses before finalizing the document.\n",
           st, db)
        else
          match complete_document_agent db doc_id now with
          | none =>
            -- fetchone() on a missing row raises; caught by the except branch
            ("❌ Error completing document: document not found", st, db)
          | some (completed_doc, db2) =>
            match st.current_template_id with
            | none =>
              -- template.name on None raises; caught — but the status update already ran
              ("❌ Error completing document: template not found", st, db2)
            | some template_id =>
              match get_doc_template db2 template_id with
              | none =>
                ("❌ Error completing document: template not found", st, db2)
              | some template =>
                let final_document := generate_final_document st completed_doc template
                let st2 : AgentSession :=
                  { current_document_id := none
                    current_template_id := none
                    current_clauses := []
                    current_clause_index := 0 }
                ("\n🎉 **NDA Document Completed Successfully!**\n\n**Document ID**: "
                  ++ toString completed_doc.id ++ "\n**Template**: " ++ template.name
                  ++ "\n**Completion Date**: " ++ completed_doc.updated_at
                  ++ "\n**Total Clauses**: " ++ toString completed_doc.content.length
                  ++ "\n\n---\n\n" ++ final_document
                  ++ "\n\n---\n\n✅ Your NDA document has been saved and is ready for use. You can start a new NDA creation anytime by calling the start_nda_creation tool.\n",
                 st2, db2)

end AgentTools

lemma find?_map_congr {α : Type} (g : α → α) (p : α → Bool)
    (hp : ∀ x, p (g x) = p x) (l : List α) :
    (l.map g).find? p = (l.find? p).map g := by
  induction l with
  | nil => rfl
  | cons a t ih =>
    by_cases h : p a = true
    · rw [List.map_cons, List.find?_cons_of_pos _ (by rw [hp]; exact h),
          List.find?_cons_of_pos _ h]
      rfl
    · rw [List.map_cons, List.find?_cons_of_neg _ (by rw [hp]; exact h),
          List.find?_cons_of_neg _ h, ih]

namespace NdaDatabase

lemma get_live_document_by_id_after_map (db : NdaDB) (doc_id : Nat)
    (g : LiveDocument → LiveDocument) (hg : ∀ x, (g x).id = x.id) :
    get_live_document_by_id
      { db with live_documents :=
          db.live_documents.map (fun x => if x.id == doc_id then g x else x) } doc_id
      = (get_live_document_by_id db doc_id).map (fun x => if x.id == doc_id then g x else x) := by
  unfold get_live_document_by_id
  apply find?_map_congr
  intro x
  by_cases h : (x.id == doc_id) = true
  · simp [h, hg]
  · simp [h]

end NdaDatabase

namespace DocTools

open NdaDatabase

lemma process_advance_spec
    (db : NdaDB) (doc_id clause_id : Nat) (user_response filled_content : String)
    (live_doc : LiveDocument)
    (hdoc : get_live_document_by_id db doc_id = some live_doc)
    (template : DocTemplate)
    (htmp : get_template_by_id db live_doc.doc_template_id = some template)
    (clauses : List TemplateClause)
    (hcl : get_clauses_by_template db template.id = clauses)
    (current_clause : TemplateClause)
    (hcc : clauses.find? (fun c => c.id == clause_id) = some current_clause)
    (next_clause : TemplateClause)
    (hnext : clauses.find? (fun c => c.order_num == current_clause.order_num + 1) = some next_clause) :
    ∃ info db2,
      process_clause_response db doc_id clause_id user_response filled_content = .ok (info, db2) ∧
      info.content = dictSet live_doc.content current_clause.section_name filled_content ∧
      info.status = live_doc.status ∧
      info.current_clause = clause_info_of next_clause ∧
      get_live_document_by_id db2 doc_id = some
        { live_doc with
            content := dictSet live_doc.content current_clause.section_name filled_content,
            current_clause_order := next_clause.order_num } := by
  have hne : clauses ≠ [] := by rintro rfl; simp at hcc
  obtain ⟨c0, rest, rfl⟩ := List.exists_cons_of_ne_nil hne
  have hid : (live_doc.id == doc_id) = true :=
    @List.find?_some _ (fun d => d.id == doc_id) live_doc db.live_documents
      (by simpa [get_live_document_by_id] using hdoc)
  simp only [process_clause_response, hdoc, htmp, hcl, hcc, hnext,
    update_live_document_content, Option.map]
  exact ⟨_, _, rfl, rfl, rfl, rfl, by
    rw [get_live_document_by_id_after_map db doc_id
      (fun x =>
        { x with
            content := dictSet live_doc.content current_clause.section_name filled_content,
            current_clause_order := next_clause.order_num })
      (fun x => rfl), hdoc]
    have hideq : live_doc.id = doc_id := by simpa using hid
    simp [hideq]⟩

lemma process_complete_spec
    (db : NdaDB) (doc_id clause_id : Nat) (user_response filled_content : String)
    (live_doc : LiveDocument)
    (hdoc : get_live_document_by_id db doc_id = some live_doc)
    (template : DocTemplate)
    (htmp : get_template_by_id db live_doc.doc_template_id = some template)
    (clauses : List TemplateClause)
    (hcl : get_clauses_by_template db template.id = clauses)
    (current_clause : TemplateClause)
    (hcc : clauses.find? (fun c => c.id == clause_id) = some current_clause)
    (hnext : clauses.find? (fun c => c.order_num == current_clause.order_num + 1) = none) :
    ∃ info db2,
      process_clause_response db doc_id clause_id user_response filled_content = .ok (info, db2) ∧
      info.content = dictSet live_doc.content current_clause.section_name filled_content ∧
      info.status = "completed" ∧
      info.current_clause = clause_info_of current_clause ∧
      get_live_document_by_id db2 doc_id = some { live_doc with status := "completed" } := by
  have hne : clauses ≠ [] := by rintro rfl; simp at hcc
  obtain ⟨c0, rest, rfl⟩ := List.exists_cons_of_ne_nil hne
  have hid : (live_doc.id == doc_id) = true :=
    @List.find?_some _ (fun d => d.id == doc_id) live_doc db.live_documents
      (by simpa [get_live_document_by_id] using hdoc)
  have hideq : live_doc.id = doc_id := by simpa using hid
  have hstored : get_live_document_by_id
      { db with live_documents := db.live_documents.map (fun x =>
          if x.id == doc_id then { x with status := "completed" } else x) } doc_id
      = some { live_doc with status := "completed" } := by
    rw [get_live_document_by_id_after_map db doc_id
      (fun x => { x with status := "completed" }) (fun x => rfl), hdoc]
    simp [hideq]
  simp only [process_clause_response, hdoc, htmp, hcl, hcc, hnext,
    NdaDatabase.complete_document, Option.map, hstored]
  exact ⟨_, _, rfl, rfl, rfl, rfl, hstored⟩

end DocTools

namespace NdaDatabase

instance instTotalClauseOrder :
    IsTotal TemplateClause (fun a b => a.order_num ≤ b.order_num) :=
  ⟨fun a b => Nat.le_total a.order_num b.order_num⟩

instance instTransClauseOrder :
    IsTrans TemplateClause (fun a b => a.order_num ≤ b.order_num) :=
  ⟨fun _ _ _ hab hbc => Nat.le_trans hab hbc⟩

lemma get_clauses_by_template_pairwise (db : NdaDB) (template_id : Nat) :
    (get_clauses_by_template db template_id).Pairwise
      (fun a b => a.order_num ≤ b.order_num) :=
  List.sorted_insertionSort _ _

lemma find?_min_of_sorted (p : TemplateClause → Bool) (l : List TemplateClause)
    (hs : l.Pairwise (fun a b => a.order_num ≤ b.order_num))
    (a : TemplateClause) (ha : l.find? p = some a) :
    ∀ x ∈ l, p x = true → a.order_num ≤ x.order_num := by
  induction l with
  | nil => simp at ha
  | cons b t ih =>
    rcases List.pairwise_cons.mp hs with ⟨hb, ht⟩
    by_cases hpb : p b = true
    · rw [List.find?_cons_of_pos _ hpb] at ha
      cases ha
      intro x hx hpx
      rcases List.mem_cons.mp hx with rfl | hxt
      · exact Nat.le_refl _
      · exact hb x hxt
    · rw [List.find?_cons_of_neg _ hpb] at ha
      intro x hx hpx
      rcases List.mem_cons.mp hx with rfl | hxt
      · exact absurd hpx hpb
      · exact ih ht ha x hxt hpx

lemma le_foldl_max (l : List LiveDocument) (a : Nat) :
    a ≤ l.foldl (fun m d => max m d.id) a := by
  induction l generalizing a with
  | nil => exact Nat.le_refl a
  | cons d t ih => exact Nat.le_trans (Nat.le_max_left a d.id) (ih (max a d.id))

lemma mem_id_le_foldl_max (l : List LiveDocument) (a : Nat) :
    ∀ d ∈ l, d.id ≤ l.foldl (fun m x => max m x.id) a := by
  induction l generalizing a with
  | nil => intro d hd; simp at hd
  | cons b t ih =>
    intro d hd
    rcases List.mem_cons.mp hd with rfl | hdt
    · exact Nat.le_trans (Nat.le_max_right a d.id) (le_foldl_max t (max a d.id))
    · exact ih (max a b.id) d hdt

lemma find?_next_document_id_none (db : NdaDB) :
    db.live_documents.find? (fun d => d.id == next_document_id db) = none := by
  rw [List.find?_eq_none]
  intro d hd h
  have hle := mem_id_le_foldl_max db.live_documents 0 d hd
  have heq : d.id = next_document_id db := by simpa using h
  unfold next_document_id at heq
  omega

end NdaDatabase

namespace DocTools

open NdaDatabase

lemma complete_document_missing_spec
    (db : NdaDB) (doc_id : Nat)
    (live_doc : LiveDocument)
    (hdoc : get_live_document_by_id db doc_id = some live_doc)
    (template : DocTemplate)
    (htmp : get_template_by_id db live_doc.doc_template_id = some template)
    (clauses : List TemplateClause)
    (hcl : get_clauses_by_template db template.id = clauses)
    (clause : TemplateClause)
    (hfind : (clauses.filter (fun c => c.type == "mandatory")).find?
        (fun c => !(dictContains live_doc.content c.section_name)) = some clause) :
    complete_document db doc_id
      = .error ("Cláusula obrigatória não preenchida: " ++ clause.section_name) := by
  have hne : clauses ≠ [] := by rintro rfl; simp at hfind
  obtain ⟨c0, rest, rfl⟩ := List.exists_cons_of_ne_nil hne
  simp only [complete_document, hdoc, htmp, hcl, hfind]

lemma complete_document_ok_spec
    (db : NdaDB) (doc_id : Nat)
    (live_doc : LiveDocument)
    (hdoc : get_live_document_by_id db doc_id = some live_doc)
    (template : DocTemplate)
    (htmp : get_template_by_id db live_doc.doc_template_id = some template)
    (clauses : List TemplateClause)
    (hcl : get_clauses_by_template db template.id = clauses)
    (hne : clauses ≠ [])
    (hfind : (clauses.filter (fun c => c.type == "mandatory")).find?
        (fun c => !(dictContains live_doc.content c.section_name)) = none) :
    ∃ s db2, complete_document db doc_id = .ok (s, db2) ∧
      get_live_document_by_id db2 doc_id = some { live_doc with status := "completed" } := by
  obtain ⟨c0, rest, rfl⟩ := List.exists_cons_of_ne_nil hne
  have hid : (live_doc.id == doc_id) = true :=
    @List.find?_some _ (fun d => d.id == doc_id) live_doc db.live_documents
      (by simpa [get_live_document_by_id] using hdoc)
  have hideq : live_doc.id = doc_id := by simpa using hid
  have hstored : get_live_document_by_id
      { db with live_documents := db.live_documents.map (fun x =>
          if x.id == doc_id then { x with status := "completed" } else x) } doc_id
      = some { live_doc with status := "completed" } := by
    rw [get_live_document_by_id_after_map db doc_id
      (fun x => { x with status := "completed" }) (fun x => rfl), hdoc]
    simp [hideq]
  simp only [complete_document, hdoc, htmp, hcl, hfind,
    NdaDatabase.complete_document, Option.map]
  exact ⟨_, _, rfl, hstored⟩

lemma start_document_creation_spec
    (db : NdaDB) (user_id : String) (template_id : Nat)
    (template : DocTemplate)
    (htmp : get_template_by_id db template_id = some template)
    (first_clause : TemplateClause) (rest : List TemplateClause)
    (hcl : get_clauses_by_template db template_id = first_clause :: rest) :
    ∃ info db2, start_document_creation db user_id template_id = .ok (info, db2) ∧
      info.current_clause = clause_info_of first_clause ∧
      info.status = "in_progress" ∧
      info.content = [] ∧
      get_live_document_by_id db2 (next_document_id db) = some
        { id := next_document_id db, user_id := user_id, doc_template_id := template_id,
          content := [], status := "in_progress", current_clause_order := 1 } := by
  simp only [start_document_creation, htmp, hcl, create_live_document]
  refine ⟨_, _, rfl, rfl, rfl, rfl, ?_⟩
  simp [get_live_document_by_id, List.find?_append,
    show db.live_documents.find? (fun d => d.id == next_document_id db) = none from
      find?_next_document_id_none db]

end DocTools

namespace Examples

open NdaDatabase AgentTools

/-- Template 1 (claims about non-contiguous numbering): clauses at order 1 and 3. -/
def clauseA : TemplateClause :=
  { id := 11, doc_template_id := 1, section_name := "A", order_num := 1, type := "mandatory",
    system_prompt := "pa", content_template := none, validation_rules := [], placeholders := [] }

/-- Second clause of template 1, at order 3 (order 2 intentionally absent). -/
def clauseB : TemplateClause :=
  { id := 13, doc_template_id := 1, section_name := "B", order_num := 3, type := "mandatory",
    system_prompt := "pb", content_template := none, validation_rules := [], placeholders := [] }

/-- Template row 1. -/
def template1 : DocTemplate :=
  { id := 1, agent_id := "ag", name := "T1", description := "d", active := true }

/-- Fresh in-progress document on template 1. -/
def doc1 : LiveDocument :=
  { id := 1, user_id := "u", doc_template_id := 1, content := [], status := "in_progress",
    current_clause_order := 1 }

/-- Database for the non-contiguous-numbering scenarios. -/
def db1 : NdaDB :=
  { doc_templates := [template1], template_clauses := [clauseA, clauseB],
    live_documents := [doc1] }

/-- Template 4: clause with a `content_template` holding one placeholder slot. -/
def clauseS : TemplateClause :=
  { id := 41, doc_template_id := 4, section_name := "S", order_num := 1, type := "mandatory",
    system_prompt := "ps", content_template := some "Hello \x7bname\x7d",
    validation_rules := [], placeholders := [("name", { required := true, description := "the name" })] }

/-- Second clause of template 4 so the accepted answer takes the persisting branch. -/
def clauseS2 : TemplateClause :=
  { id := 42, doc_template_id := 4, section_name := "S2", order_num := 2, type := "optional",
    system_prompt := "ps2", content_template := none, validation_rules := [], placeholders := [] }

/-- Template row 4. -/
def template4 : DocTemplate :=
  { id := 4, agent_id := "ag", name := "T4", description := "d", active := true }

/-- Fresh in-progress document on template 4. -/
def docSub : LiveDocument :=
  { id := 1, user_id := "u", doc_template_id := 4, content := [], status := "in_progress",
    current_clause_order := 1 }

/-- Database for the placeholder-substitution scenario. -/
def dbSub : NdaDB :=
  { doc_templates := [template4], template_clauses := [clauseS, clauseS2],
    live_documents := [docSub] }

/-- Template 5 clauses, orders 1 and 2. -/
def clauseA2 : TemplateClause :=
  { id := 51, doc_template_id := 5, section_name := "A", order_num := 1, type := "mandatory",
    system_prompt := "pa", content_template := none, validation_rules := [], placeholders := [] }

/-- Template 5, order-2 clause. -/
def clauseB2 : TemplateClause :=
  { id := 52, doc_template_id := 5, section_name := "B", order_num := 2, type := "mandatory",
    system_prompt := "pb", content_template := none, validation_rules := [], placeholders := [] }

/-- Template row 5. -/
def template5 : DocTemplate :=
  { id := 5, agent_id := "ag", name := "T5", description := "d", active := true }

/-- An already-completed document on template 5, cursor at order 2. -/
def docDone : LiveDocument :=
  { id := 7, user_id := "u", doc_template_id := 5, content := [], status := "completed",
    current_clause_order := 2 }

/-- Database for the completed-status scenario. -/
def dbDone : NdaDB :=
  { doc_templates := [template5], template_clauses := [clauseA2, clauseB2],
    live_documents := [docDone] }

/-- Template 6: two mandatory clauses, both unfilled. -/
def clauseSecA : TemplateClause :=
  { id := 61, doc_template_id := 6, section_name := "SecA", order_num := 1, type := "mandatory",
    system_prompt := "p1", content_template := none, validation_rules := [], placeholders := [] }

/-- Template 6, second mandatory clause. -/
def clauseSecB : TemplateClause :=
  { id := 62, doc_template_id := 6, section_name := "SecB", order_num := 2, type := "mandatory",
    system_prompt := "p2", content_template := none, validation_rules := [], placeholders := [] }

/-- Template row 6. -/
def template6 : DocTemplate :=
  { id := 6, agent_id := "ag", name := "T6", description := "d", active := true }

/-- In-progress document on template 6 with empty content. -/
def docMiss : LiveDocument :=
  { id := 9, user_id := "u", doc_template_id := 6, content := [], status := "in_progress",
    current_clause_order := 1 }

/-- Database for the two-missing-mandatory-clauses scenario. -/
def dbMiss : NdaDB :=
  { doc_templates := [template6], template_clauses := [clauseSecA, clauseSecB],
    live_documents := [docMiss] }

/-- Template 2: a single mandatory clause (the last-clause scenario). -/
def clauseParties : TemplateClause :=
  { id := 21, doc_template_id := 2, section_name := "Parties", order_num := 1, type := "mandatory",
    system_prompt := "pp", content_template := none, validation_rules := [], placeholders := [] }

/-- Template row 2. -/
def template2 : DocTemplate :=
  { id := 2, agent_id := "ag", name := "T2", description := "d", active := true }

/-- Fresh in-progress document on template 2. -/
def docOne : LiveDocument :=
  { id := 2, user_id := "u", doc_template_id := 2, content := [], status := "in_progress",
    current_clause_order := 1 }

/-- Database for the single-clause scenario. -/
def dbOne : NdaDB :=
  { doc_templates := [template2], template_clauses := [clauseParties],
    live_documents := [docOne] }

/-- Template 3: clause numbering starts at 2 rather than 1. -/
def clauseP2 : TemplateClause :=
  { id := 31, doc_template_id := 3, section_name := "P2", order_num := 2, type := "mandatory",
    system_prompt := "p2", content_template := none, validation_rules := [], placeholders := [] }

/-- Template 3, order-3 clause. -/
def clauseP3 : TemplateClause :=
  { id := 32, doc_template_id := 3, section_name := "P3", order_num := 3, type := "optional",
    system_prompt := "p3", content_template := none, validation_rules := [], placeholders := [] }

/-- Template row 3. -/
def template3 : DocTemplate :=
  { id := 3, agent_id := "ag", name := "T3", description := "d", active := true }

/-- Template row 7: a template that has no clauses at all. -/
def template7 : DocTemplate :=
  { id := 7, agent_id := "ag", name := "T7", description := "d", active := true }

/-- Database for the `start` scenarios (no documents yet). -/
def dbSparse : NdaDB :=
  { doc_templates := [template3, template7], template_clauses := [clauseP2, clauseP3],
    live_documents := [] }

/-- Template 8: one mandatory clause that has been filled. -/
def clauseDone : TemplateClause :=
  { id := 81, doc_template_id := 8, section_name := "Done", order_num := 1, type := "mandatory",
    system_prompt := "pd", content_template := none, validation_rules := [], placeholders := [] }

/-- Template row 8. -/
def template8 : DocTemplate :=
  { id := 8, agent_id := "ag", name := "T8", description := "d", active := true }

/-- Document on template 8 with its mandatory section filled. -/
def docOK : LiveDocument :=
  { id := 4, user_id := "u", doc_template_id := 8, content := [("Done", "ok")],
    status := "in_progress", current_clause_order := 2 }

/-- Database on which finalize succeeds. -/
def dbOK : NdaDB :=
  { doc_templates := [template8], template_clauses := [clauseDone],
    live_documents := [docOK] }

/-- The database after finalize succeeds on `dbOK`. -/
def dbOKCompleted : NdaDB :=
  { doc_templates := [template8], template_clauses := [clauseDone],
    live_documents := [{ docOK with status := "completed" }] }

/-- Agent-side mandatory clause. -/
def clmM : ClauseModel :=
  { id := 91, doc_template_id := 9, order_num := 1, section_name := "M1",
    type := ClauseType.MANDATORY, type_alternatives := [], alert_conditions := [],
    suggestions := [], system_prompt := "pm" }

/-- Agent-side optional clause. -/
def clmO : ClauseModel :=
  { id := 92, doc_template_id := 9, order_num := 2, section_name := "Opt1",
    type := ClauseType.OPTIONAL, type_alternatives := [], alert_conditions := [],
    suggestions := [], system_prompt := "po" }

/-- Agent-side mandatory clause carrying a `min_length` alert condition. -/
def clmV : ClauseModel :=
  { id := 93, doc_template_id := 9, order_num := 1, section_name := "V1",
    type := ClauseType.MANDATORY, type_alternatives := [],
    alert_conditions := [("len", AlertCond.min_length 10 (some "Too short"))],
    suggestions := [], system_prompt := "pv" }

/-- Session whose current clause is the mandatory `clmM`. -/
def stM : AgentSession :=
  { current_document_id := some 3, current_template_id := some 9,
    current_clauses := [clmM, clmO], current_clause_index := 0 }

/-- Session whose current clause is the optional `clmO`. -/
def stO : AgentSession :=
  { current_document_id := some 3, current_template_id := some 9,
    current_clauses := [clmO], current_clause_index := 0 }

/-- Session whose current clause carries the `min_length` rule. -/
def stV : AgentSession :=
  { current_document_id := some 3, current_template_id := some 9,
    current_clauses := [clmV], current_clause_index := 0 }

/-- The template row of the agent-side database. -/
def adbTemplate : DocTemplateModel := { id := 9, name := "T9" }

/-- The one document row of the agent-side database. -/
def adbDoc : DocumentAgent :=
  { id := 3, doc_template_id := 9, content := [], status := "in_progress",
    current_clause_order := 1, created_at := "c0", updated_at := "u0" }

/-- Agent-side database with one fresh document. -/
def adb : AgentDB :=
  { doc_templates := [adbTemplate], documents_agents := [adbDoc] }

end Examples

lemma dictGet_dictSet_self (d : List (String × String)) (k v : String) :
    dictGet (dictSet d k v) k = some v := by
  unfold dictSet
  by_cases h : dictContains d k = true
  · rw [if_pos h]
    induction d with
    | nil => simp [dictContains] at h
    | cons a t ih =>
      by_cases ha : (a.1 == k) = true
      · unfold dictGet
        simp only [List.map_cons]
        rw [if_pos ha, List.find?_cons_of_pos _ (by exact ha)]
        rfl
      · unfold dictGet
        simp only [List.map_cons]
        rw [if_neg ha, List.find?_cons_of_neg _ (by exact ha)]
        have ht : dictContains t k = true := by
          unfold dictContains at h ⊢
          rcases List.any_eq_true.mp h with ⟨x, hx, hpx⟩
          rcases List.mem_cons.mp hx with rfl | hxt
          · exact absurd hpx (by exact ha)
          · exact List.any_eq_true.mpr ⟨x, hxt, hpx⟩
        have hres := ih ht
        unfold dictGet at hres
        exact hres
  · rw [if_neg h]
    unfold dictGet
    rw [List.find?_append]
    have hnone : d.find? (fun kv => kv.1 == k) = none := by
      rw [List.find?_eq_none]
      intro x hx hpx
      exact h (by unfold dictContains; exact List.any_eq_true.mpr ⟨x, hx, hpx⟩)
    simp [hnone]

/-- C1 counterexample: on template 1 (clause orders 1 and 3, so the smallest
order strictly greater than 1 is 3) an accepted answer for the order-1 clause
does not advance the cursor to 3: the stored cursor stays 1 and the document
is marked completed instead. -/
theorem C1_counterexample :
    (DocTools.process_clause_response Examples.db1 1 11 "ans" "ans").toOption.map
        (fun r => (r.1.status,
          (NdaDatabase.get_live_document_by_id r.2 1).map (fun d => d.current_clause_order)))
      = some ("completed", some 1) ∧ (1 : Nat) ≠ 3 :=
  ⟨rfl, by decide⟩

/-- C1 (amended): an accepted answer advances the cursor to exactly
`current.order_num + 1` when a clause with that `order_num` exists, returning
that clause as the next prompt; when no such clause exists — including merely
non-contiguous numbering — the document is marked completed with cursor
unchanged.  The smallest-strictly-greater rule is not implemented. -/
theorem C1_theorem
    (db : NdaDatabase.NdaDB) (doc_id clause_id : Nat)
    (user_response filled_content : String)
    (live_doc : NdaDatabase.LiveDocument)
    (template : NdaDatabase.DocTemplate)
    (clauses : List NdaDatabase.TemplateClause)
    (current_clause : NdaDatabase.TemplateClause)
    (hdoc : NdaDatabase.get_live_document_by_id db doc_id = some live_doc)
    (htmp : NdaDatabase.get_template_by_id db live_doc.doc_template_id = some template)
    (hcl : NdaDatabase.get_clauses_by_template db template.id = clauses)
    (hcc : clauses.find? (fun c => c.id == clause_id) = some current_clause) :
    (∀ next_clause,
        clauses.find? (fun c => c.order_num == current_clause.order_num + 1) = some next_clause →
        ∃ info db2,
          DocTools.process_clause_response db doc_id clause_id user_response filled_content
            = .ok (info, db2) ∧
          info.current_clause = DocTools.clause_info_of next_clause ∧
          info.status = live_doc.status ∧
          NdaDatabase.get_live_document_by_id db2 doc_id = some
            { live_doc with
                content := dictSet live_doc.content current_clause.section_name filled_content,
                current_clause_order := next_clause.order_num }) ∧
    (clauses.find? (fun c => c.order_num == current_clause.order_num + 1) = none →
        ∃ info db2,
          DocTools.process_clause_response db doc_id clause_id user_response filled_content
            = .ok (info, db2) ∧
          info.status = "completed" ∧
          NdaDatabase.get_live_document_by_id db2 doc_id
            = some { live_doc with status := "completed" }) := by
  constructor
  · intro next_clause hnext
    obtain ⟨info, db2, h1, _, h3, h4, h5⟩ :=
      DocTools.process_advance_spec db doc_id clause_id user_response filled_content
        live_doc hdoc template htmp clauses hcl current_clause hcc next_clause hnext
    exact ⟨info, db2, h1, h4, h3, h5⟩
  · intro hnext
    obtain ⟨info, db2, h1, _, h3, _, h5⟩ :=
      DocTools.process_complete_spec db doc_id clause_id user_response filled_content
        live_doc hdoc template htmp clauses hcl current_clause hcc hnext
    exact ⟨info, db2, h1, h3, h5⟩

/-- C1 witness: the amended theorem applied to the concrete template with
clause orders 1 and 3 — the gap makes the accepted answer complete the
document. -/
theorem C1_witness :
    ∃ info db2,
      DocTools.process_clause_response Examples.db1 1 11 "ans" "ans" = .ok (info, db2) ∧
      info.status = "completed" ∧
      NdaDatabase.get_live_document_by_id db2 1
        = some { Examples.doc1 with status := "completed" } :=
  (C1_theorem Examples.db1 1 11 "ans" "ans" Examples.doc1 Examples.template1
    [Examples.clauseA, Examples.clauseB] Examples.clauseA rfl rfl rfl rfl).2 rfl

/-- C2 counterexample: the answer-processing path marks document 1 completed
while the mandatory clause "B" of its template has no entry in the stored
content — the claimed invariant fails, and Completed is reached outside
finalize. -/
theorem C2_counterexample :
    (DocTools.process_clause_response Examples.db1 1 11 "ans" "ans").toOption.map
        (fun r => (NdaDatabase.get_live_document_by_id r.2 1).map
          (fun d => (d.status, dictContains d.content "B")))
      = some (some ("completed", false)) ∧
    (NdaDatabase.get_clauses_by_template Examples.db1 1).map
        (fun c => (c.section_name, c.type))
      = [("A", "mandatory"), ("B", "mandatory")] :=
  ⟨rfl, rfl⟩

/-- C2 (amended): a document marked Completed by the finalize tool
(`complete_document`) does have every mandatory clause section in content;
but `process_clause_response` also reaches Completed (whenever no clause has
`order_num` current + 1) without this check, so the invariant does not hold
for that path. -/
theorem C2_theorem
    (db : NdaDatabase.NdaDB) (doc_id : Nat)
    (live_doc : NdaDatabase.LiveDocument)
    (template : NdaDatabase.DocTemplate)
    (clauses : List NdaDatabase.TemplateClause)
    (hdoc : NdaDatabase.get_live_document_by_id db doc_id = some live_doc)
    (htmp : NdaDatabase.get_template_by_id db live_doc.doc_template_id = some template)
    (hcl : NdaDatabase.get_clauses_by_template db template.id = clauses)
    (s : String) (db2 : NdaDatabase.NdaDB)
    (hok : DocTools.complete_document db doc_id = .ok (s, db2)) :
    (∀ c ∈ clauses, c.type = "mandatory" →
        dictContains live_doc.content c.section_name = true) ∧
    NdaDatabase.get_live_document_by_id db2 doc_id
      = some { live_doc with status := "completed" } := by
  rcases hfind : (clauses.filter (fun c => c.type == "mandatory")).find?
      (fun c => !(dictContains live_doc.content c.section_name)) with _ | clause
  · have hne : clauses ≠ [] := by
      rintro rfl
      simp only [DocTools.complete_document, hdoc, htmp, hcl] at hok
      exact absurd hok (by simp)
    obtain ⟨s2, db2x, hok2, hstored⟩ :=
      DocTools.complete_document_ok_spec db doc_id live_doc hdoc template htmp
        clauses hcl hne hfind
    have h12 := hok2.symm.trans hok
    simp only [Except.ok.injEq, Prod.mk.injEq] at h12
    refine ⟨?_, ?_⟩
    · intro c hc hct
      have hmem : c ∈ clauses.filter (fun c => c.type == "mandatory") :=
        List.mem_filter.mpr ⟨hc, by simp [hct]⟩
      have hnm := List.find?_eq_none.mp hfind c hmem
      simpa using hnm
    · rw [← h12.2]
      exact hstored
  · rw [DocTools.complete_document_missing_spec db doc_id live_doc hdoc template htmp
      clauses hcl clause hfind] at hok
    exact absurd hok (by simp)

/-- C2 witness: the amended theorem applied to a database where finalize
succeeds (single mandatory clause, filled). -/
theorem C2_witness :
    (∀ c ∈ [Examples.clauseDone], c.type = "mandatory" →
        dictContains Examples.docOK.content c.section_name = true) ∧
    NdaDatabase.get_live_document_by_id Examples.dbOKCompleted 4
      = some { Examples.docOK with status := "completed" } :=
  C2_theorem Examples.dbOK 4 Examples.docOK Examples.template8 [Examples.clauseDone]
    rfl rfl rfl "# T8\n\n## Done\n\nok\n\n" Examples.dbOKCompleted rfl

/-- C3 counterexample: for a clause with `content_template` "Hello {name}"
and raw answer "Bob", the workflow passes the substituted text to the engine
and the stored value is "Hello Bob", not the raw answer verbatim. -/
theorem C3_counterexample :
    Workflow.validate_and_fill_clause (DocTools.clause_info_of Examples.clauseS) "Bob"
      = "Hello Bob" ∧
    (DocTools.process_clause_response Examples.dbSub 1 41 "Bob"
        (Workflow.validate_and_fill_clause (DocTools.clause_info_of Examples.clauseS) "Bob")).toOption.map
        (fun r => dictGet r.1.content "S")
      = some (some "Hello Bob") ∧
    ("Hello Bob" : String) ≠ "Bob" :=
  ⟨rfl, rfl, by decide⟩

/-- C3 (amended): the engine stores the caller-supplied `filled_content`
verbatim under the clause section, performing no substitution itself; the
workflow, however, computes `filled_content` by substituting the raw answer
into `content_template` when one is present, so the stored value is the raw
answer only when `content_template` is absent. -/
theorem C3_theorem :
    (∀ (clause : DocTools.ClauseInfo) (user_response : String),
        clause.content_template = none →
        Workflow.validate_and_fill_clause clause user_response = user_response) ∧
    (∀ (db : NdaDatabase.NdaDB) (doc_id clause_id : Nat)
        (user_response filled_content : String)
        (live_doc : NdaDatabase.LiveDocument) (template : NdaDatabase.DocTemplate)
        (clauses : List NdaDatabase.TemplateClause)
        (current_clause next_clause : NdaDatabase.TemplateClause),
        NdaDatabase.get_live_document_by_id db doc_id = some live_doc →
        NdaDatabase.get_template_by_id db live_doc.doc_template_id = some template →
        NdaDatabase.get_clauses_by_template db template.id = clauses →
        clauses.find? (fun c => c.id == clause_id) = some current_clause →
        clauses.find? (fun c => c.order_num == current_clause.order_num + 1)
          = some next_clause →
        ∃ info db2,
          DocTools.process_clause_response db doc_id clause_id user_response filled_content
            = .ok (info, db2) ∧
          dictGet info.content current_clause.section_name = some filled_content) := by
  constructor
  · intro clause user_response hnone
    unfold Workflow.validate_and_fill_clause
    rw [hnone]
  · intro db doc_id clause_id ur fc live_doc template clauses cc nc hdoc htmp hcl hcc hnext
    obtain ⟨info, db2, h1, h2, _, _, _⟩ :=
      DocTools.process_advance_spec db doc_id clause_id ur fc live_doc hdoc template htmp
        clauses hcl cc hcc nc hnext
    exact ⟨info, db2, h1, by rw [h2]; exact dictGet_dictSet_self _ _ _⟩

/-- C3 witness: both parts of the amended theorem at concrete inputs — a
clause without `content_template` keeps the raw answer, and the engine stores
the supplied filled text. -/
theorem C3_witness :
    Workflow.validate_and_fill_clause (DocTools.clause_info_of Examples.clauseA) "raw"
      = "raw" ∧
    (∃ info db2,
      DocTools.process_clause_response Examples.dbSub 1 41 "Bob" "Hello Bob"
        = .ok (info, db2) ∧
      dictGet info.content Examples.clauseS.section_name = some "Hello Bob") :=
  ⟨C3_theorem.1 (DocTools.clause_info_of Examples.clauseA) "raw" rfl,
   C3_theorem.2 Examples.dbSub 1 41 "Bob" "Hello Bob" Examples.docSub Examples.template4
     [Examples.clauseS, Examples.clauseS2] Examples.clauseS Examples.clauseS2
     rfl rfl rfl rfl rfl⟩

/-- C4 counterexample: submitting against document 7, whose stored status is
already "completed" and whose cursor is 2, succeeds instead of failing with
NoActiveSession, and it validates/stores against the clause with id 51
(section "A", order 1) rather than the clause whose order_num equals the
cursor (section "B"). -/
theorem C4_counterexample :
    (NdaDatabase.get_live_document_by_id Examples.dbDone 7).map
        (fun d => (d.status, d.current_clause_order)) = some ("completed", 2) ∧
    (DocTools.process_clause_response Examples.dbDone 7 51 "x" "x").toOption.map
        (fun r => r.1.content) = some [("A", "x")] ∧
    ((NdaDatabase.get_clauses_by_template Examples.dbDone 5).find?
        (fun c => c.order_num == 2)).map (fun c => c.section_name) = some "B" ∧
    (DocTools.process_clause_response Examples.dbDone 7 51 "x" "x").toOption.map
        (fun r => dictContains r.1.content "B") = some false :=
  ⟨rfl, rfl, rfl, rfl⟩

/-- C4 (amended): the call fails with a not-found error when the document (or
the template, the clause list, or the clause id) is missing; a Completed
status is not checked, and the clause validated and stored against is the one
whose id equals the caller-supplied clause_id, independent of
current_clause_order. -/
theorem C4_theorem :
    (∀ (db : NdaDatabase.NdaDB) (doc_id clause_id : Nat) (ur fc : String),
        NdaDatabase.get_live_document_by_id db doc_id = none →
        DocTools.process_clause_response db doc_id clause_id ur fc
          = .error ("Documento não encontrado: " ++ toString doc_id)) ∧
    (∀ (db : NdaDatabase.NdaDB) (doc_id clause_id : Nat) (ur fc : String)
        (live_doc : NdaDatabase.LiveDocument) (template : NdaDatabase.DocTemplate)
        (clauses : List NdaDatabase.TemplateClause),
        NdaDatabase.get_live_document_by_id db doc_id = some live_doc →
        NdaDatabase.get_template_by_id db live_doc.doc_template_id = some template →
        NdaDatabase.get_clauses_by_template db template.id = clauses →
        clauses ≠ [] →
        clauses.find? (fun c => c.id == clause_id) = none →
        DocTools.process_clause_response db doc_id clause_id ur fc
          = .error ("Cláusula não encontrada: " ++ toString clause_id)) ∧
    (∀ (db : NdaDatabase.NdaDB) (doc_id clause_id : Nat) (ur fc : String)
        (live_doc : NdaDatabase.LiveDocument) (template : NdaDatabase.DocTemplate)
        (clauses : List NdaDatabase.TemplateClause)
        (current_clause : NdaDatabase.TemplateClause),
        NdaDatabase.get_live_document_by_id db doc_id = some live_doc →
        NdaDatabase.get_template_by_id db live_doc.doc_template_id = some template →
        NdaDatabase.get_clauses_by_template db template.id = clauses →
        clauses.find? (fun c => c.id == clause_id) = some current_clause →
        ∃ info db2,
          DocTools.process_clause_response db doc_id clause_id ur fc = .ok (info, db2) ∧
          info.content
            = dictSet live_doc.content current_clause.section_name fc) := by
  refine ⟨?_, ?_, ?_⟩
  · intro db doc_id clause_id ur fc h
    simp only [DocTools.process_clause_response, h]
  · intro db doc_id clause_id ur fc live_doc template clauses hdoc htmp hcl hne hccn
    obtain ⟨c0, rest, rfl⟩ := List.exists_cons_of_ne_nil hne
    simp only [DocTools.process_clause_response, hdoc, htmp, hcl, hccn]
  · intro db doc_id clause_id ur fc live_doc template clauses cc hdoc htmp hcl hcc
    rcases hnext : clauses.find? (fun c => c.order_num == cc.order_num + 1) with _ | nc
    · obtain ⟨info, db2, h1, h2, _, _, _⟩ :=
        DocTools.process_complete_spec db doc_id clause_id ur fc live_doc hdoc template
          htmp clauses hcl cc hcc hnext
      exact ⟨info, db2, h1, h2⟩
    · obtain ⟨info, db2, h1, h2, _, _, _⟩ :=
        DocTools.process_advance_spec db doc_id clause_id ur fc live_doc hdoc template
          htmp clauses hcl cc hcc nc hnext
      exact ⟨info, db2, h1, h2⟩

/-- C4 witness: the three parts of the amended theorem at concrete inputs —
missing document id 99, unknown clause id 99, and a successful store against
the id-resolved clause on an already-completed document. -/
theorem C4_witness :
    DocTools.process_clause_response Examples.dbDone 99 51 "x" "x"
      = .error ("Documento não encontrado: " ++ toString 99) ∧
    DocTools.process_clause_response Examples.dbDone 7 99 "x" "x"
      = .error ("Cláusula não encontrada: " ++ toString 99) ∧
    (∃ info db2,
      DocTools.process_clause_response Examples.dbDone 7 51 "x" "x" = .ok (info, db2) ∧
      info.content
        = dictSet Examples.docDone.content Examples.clauseA2.section_name "x") :=
  ⟨C4_theorem.1 Examples.dbDone 99 51 "x" "x" rfl,
   C4_theorem.2.1 Examples.dbDone 7 99 "x" "x" Examples.docDone Examples.template5
     [Examples.clauseA2, Examples.clauseB2] rfl rfl rfl (List.cons_ne_nil _ _) rfl,
   C4_theorem.2.2 Examples.dbDone 7 51 "x" "x" Examples.docDone Examples.template5
     [Examples.clauseA2, Examples.clauseB2] Examples.clauseA2 rfl rfl rfl rfl⟩

/-- C5 counterexample: with both mandatory sections "SecA" and "SecB"
missing, finalize reports only the first one — the error message does not
mention "SecB", so it does not carry the whole missing set. -/
theorem C5_counterexample :
    DocTools.complete_document Examples.dbMiss 9
      = .error "Cláusula obrigatória não preenchida: SecA" ∧
    ((NdaDatabase.get_clauses_by_template Examples.dbMiss 6).filter
        (fun c => c.type == "mandatory" && !(dictContains Examples.docMiss.content c.section_name))).map
        (fun c => c.section_name)
      = ["SecA", "SecB"] ∧
    pyIn "SecB" "Cláusula obrigatória não preenchida: SecA" = false :=
  ⟨rfl, rfl, rfl⟩

/-- C5 (amended): finalize succeeds iff every mandatory clause section is in
content; on failure it raises on only the first missing mandatory clause in
order_num order (the missing one with the smallest order_num), without
mutating the document; the other missing names are not reported. -/
theorem C5_theorem
    (db : NdaDatabase.NdaDB) (doc_id : Nat)
    (live_doc : NdaDatabase.LiveDocument)
    (template : NdaDatabase.DocTemplate)
    (clauses : List NdaDatabase.TemplateClause)
    (hdoc : NdaDatabase.get_live_document_by_id db doc_id = some live_doc)
    (htmp : NdaDatabase.get_template_by_id db live_doc.doc_template_id = some template)
    (hcl : NdaDatabase.get_clauses_by_template db template.id = clauses)
    (hne : clauses ≠ []) :
    (∀ clause,
        (clauses.filter (fun c => c.type == "mandatory")).find?
            (fun c => !(dictContains live_doc.content c.section_name)) = some clause →
        DocTools.complete_document db doc_id
          = .error ("Cláusula obrigatória não preenchida: " ++ clause.section_name) ∧
        ∀ x ∈ clauses.filter (fun c => c.type == "mandatory"),
          dictContains live_doc.content x.section_name = false →
          clause.order_num ≤ x.order_num) ∧
    ((clauses.filter (fun c => c.type == "mandatory")).find?
        (fun c => !(dictContains live_doc.content c.section_name)) = none →
      ∃ s db2, DocTools.complete_document db doc_id = .ok (s, db2) ∧
        NdaDatabase.get_live_document_by_id db2 doc_id
          = some { live_doc with status := "completed" }) := by
  constructor
  · intro clause hfind
    refine ⟨DocTools.complete_document_missing_spec db doc_id live_doc hdoc template htmp
      clauses hcl clause hfind, ?_⟩
    have hpw : (clauses.filter (fun c => c.type == "mandatory")).Pairwise
        (fun a b => a.order_num ≤ b.order_num) := by
      have hs := NdaDatabase.get_clauses_by_template_pairwise db template.id
      rw [hcl] at hs
      exact hs.filter _
    intro x hx hmiss
    exact NdaDatabase.find?_min_of_sorted _ _ hpw clause hfind x hx (by simp [hmiss])
  · intro hfind
    exact DocTools.complete_document_ok_spec db doc_id live_doc hdoc template htmp
      clauses hcl hne hfind

/-- C5 witness: the amended theorem at the two-missing-clauses database (only
"SecA" reported, and it is order-minimal among the missing) and at a database
where finalize succeeds. -/
theorem C5_witness :
    (DocTools.complete_document Examples.dbMiss 9
        = .error ("Cláusula obrigatória não preenchida: " ++ Examples.clauseSecA.section_name) ∧
      ∀ x ∈ [Examples.clauseSecA, Examples.clauseSecB].filter (fun c => c.type == "mandatory"),
        dictContains Examples.docMiss.content x.section_name = false →
        Examples.clauseSecA.order_num ≤ x.order_num) ∧
    (∃ s db2, DocTools.complete_document Examples.dbOK 4 = .ok (s, db2) ∧
      NdaDatabase.get_live_document_by_id db2 4
        = some { Examples.docOK with status := "completed" }) :=
  ⟨(C5_theorem Examples.dbMiss 9 Examples.docMiss Examples.template6
      [Examples.clauseSecA, Examples.clauseSecB] rfl rfl rfl
      (List.cons_ne_nil _ _)).1 Examples.clauseSecA rfl,
   (C5_theorem Examples.dbOK 4 Examples.docOK Examples.template8
      [Examples.clauseDone] rfl rfl rfl (List.cons_ne_nil _ _)).2 rfl⟩

/-- C6: the last-clause bug.  Accepting the answer for the only clause of
template 2 marks the stored document completed but persists neither the
enlarged content nor the cursor: the store keeps content = {} while the
returned value claims the section is filled, and finalize on the resulting
database fails on the very clause just answered. -/
theorem C6_theorem :
    (DocTools.process_clause_response Examples.dbOne 2 21 "Acme Inc." "Acme Inc.").toOption.map
        (fun r => (r.1.status, r.1.content,
          (NdaDatabase.get_live_document_by_id r.2 2).map
            (fun d => (d.content, d.status, d.current_clause_order))))
      = some ("completed", [("Parties", "Acme Inc.")], some ([], "completed", 1)) ∧
    (match DocTools.process_clause_response Examples.dbOne 2 21 "Acme Inc." "Acme Inc." with
     | .ok (_, db2) =>
        DocTools.complete_document db2 2
          = .error "Cláusula obrigatória não preenchida: Parties"
     | .error _ => False) :=
  ⟨rfl, rfl⟩

/-- C7 counterexample: on a template whose clause numbering starts at 2,
`start` returns the order-2 clause as the first prompt but initialises the
stored cursor to the constant 1, not to the first clause's order_num. -/
theorem C7_counterexample :
    (DocTools.start_document_creation Examples.dbSparse "u" 3).toOption.map
        (fun r => (r.1.current_clause.order_num,
          (NdaDatabase.get_live_document_by_id r.2 1).map (fun d => d.current_clause_order)))
      = some (2, some 1) ∧ (1 : Nat) ≠ 2 :=
  ⟨rfl, by decide⟩

/-- C7 (amended): `start` fails on an unknown template id and on an empty
clause list; otherwise it creates a document with status InProgress, empty
content and `current_clause_order` equal to the constant 1 (which equals the
first clause's order_num only when numbering starts at 1), and returns the
prompt for the clause with the smallest order_num. -/
theorem C7_theorem :
    (∀ (db : NdaDatabase.NdaDB) (user_id : String) (template_id : Nat),
        NdaDatabase.get_template_by_id db template_id = none →
        DocTools.start_document_creation db user_id template_id
          = .error ("Template não encontrado: " ++ toString template_id)) ∧
    (∀ (db : NdaDatabase.NdaDB) (user_id : String) (template_id : Nat)
        (template : NdaDatabase.DocTemplate),
        NdaDatabase.get_template_by_id db template_id = some template →
        NdaDatabase.get_clauses_by_template db template_id = [] →
        DocTools.start_document_creation db user_id template_id
          = .error ("Template sem cláusulas: " ++ toString template_id)) ∧
    (∀ (db : NdaDatabase.NdaDB) (user_id : String) (template_id : Nat)
        (template : NdaDatabase.DocTemplate)
        (first_clause : NdaDatabase.TemplateClause)
        (rest : List NdaDatabase.TemplateClause),
        NdaDatabase.get_template_by_id db template_id = some template →
        NdaDatabase.get_clauses_by_template db template_id = first_clause :: rest →
        ∃ info db2,
          DocTools.start_document_creation db user_id template_id = .ok (info, db2) ∧
          info.current_clause = DocTools.clause_info_of first_clause ∧
          info.status = "in_progress" ∧
          info.content = [] ∧
          (∀ c ∈ first_clause :: rest, first_clause.order_num ≤ c.order_num) ∧
          NdaDatabase.get_live_document_by_id db2 (NdaDatabase.next_document_id db) = some
            { id := NdaDatabase.next_document_id db, user_id := user_id,
              doc_template_id := template_id, content := [], status := "in_progress",
              current_clause_order := 1 }) := by
  refine ⟨?_, ?_, ?_⟩
  · intro db user_id template_id h
    simp only [DocTools.start_document_creation, h]
  · intro db user_id template_id template htmp hcl
    simp only [DocTools.start_document_creation, htmp, hcl]
  · intro db user_id template_id template first_clause rest htmp hcl
    obtain ⟨info, db2, h1, h2, h3, h4, h5⟩ :=
      DocTools.start_document_creation_spec db user_id template_id template htmp
        first_clause rest hcl
    have hmin : ∀ c ∈ first_clause :: rest, first_clause.order_num ≤ c.order_num := by
      have hpw := NdaDatabase.get_clauses_by_template_pairwise db template_id
      rw [hcl] at hpw
      intro c hc
      rcases List.mem_cons.mp hc with rfl | hct
      · exact Nat.le_refl _
      · exact (List.pairwise_cons.mp hpw).1 c hct
    exact ⟨info, db2, h1, h2, h3, h4, hmin, h5⟩

/-- C7 witness: the three parts of the amended theorem at a concrete store —
unknown template 99, clauseless template 7, and template 3 whose first clause
has order_num 2 while the created cursor is 1. -/
theorem C7_witness :
    DocTools.start_document_creation Examples.dbSparse "u" 99
      = .error ("Template não encontrado: " ++ toString 99) ∧
    DocTools.start_document_creation Examples.dbSparse "u" 7
      = .error ("Template sem cláusulas: " ++ toString 7) ∧
    (∃ info db2,
      DocTools.start_document_creation Examples.dbSparse "u" 3 = .ok (info, db2) ∧
      info.current_clause = DocTools.clause_info_of Examples.clauseP2 ∧
      info.status = "in_progress" ∧
      info.content = [] ∧
      (∀ c ∈ Examples.clauseP2 :: [Examples.clauseP3],
        Examples.clauseP2.order_num ≤ c.order_num) ∧
      NdaDatabase.get_live_document_by_id db2 (NdaDatabase.next_document_id Examples.dbSparse)
        = some
          { id := NdaDatabase.next_document_id Examples.dbSparse, user_id := "u",
            doc_template_id := 3, content := [], status := "in_progress",
            current_clause_order := 1 }) :=
  ⟨C7_theorem.1 Examples.dbSparse "u" 99 rfl,
   C7_theorem.2.1 Examples.dbSparse "u" 7 Examples.template7 rfl rfl,
   C7_theorem.2.2 Examples.dbSparse "u" 3 Examples.template3 Examples.clauseP2
     [Examples.clauseP3] rfl rfl⟩

/-- C8 counterexample: a successful skip of the optional current clause (with
the matching section name) returns the acknowledgement string but leaves the
session index — the traversal cursor — unchanged, so skip does not advance
the cursor as the answer path does. -/
theorem C8_counterexample :
    AgentTools.skip_optional_clause Examples.stO Examples.adb "Opt1"
      = ("✅ Optional clause \x27Opt1\x27 has been skipped. Ready to proceed to the next clause.",
         Examples.stO, Examples.adb) ∧
    Examples.stO.current_clause_index = 0 ∧ (0 : Nat) ≠ 0 + 1 :=
  ⟨rfl, rfl, by decide⟩

/-- C8 (amended): skip fails on a non-Optional current clause and on a
section-name mismatch with the stated messages, and no branch of skip — the
success branch included — mutates the session or the database; the cursor is
advanced only by the separate `proceed_to_next_clause`, which unconditionally
increments the index by one and leaves content untouched. -/
theorem C8_theorem :
    (∀ (st : AgentTools.AgentSession) (db : AgentTools.AgentDB) (section_name : String),
        (AgentTools.skip_optional_clause st db section_name).2 = (st, db)) ∧
    (∀ (st : AgentTools.AgentSession) (db : AgentTools.AgentDB) (section_name : String)
        (h : st.current_clause_index < st.current_clauses.length),
        (st.current_clauses.get ⟨st.current_clause_index, h⟩).type
            ≠ AgentTools.ClauseType.OPTIONAL →
        (AgentTools.skip_optional_clause st db section_name).1
          = "❌ Cannot skip mandatory clause: "
            ++ (st.current_clauses.get ⟨st.current_clause_index, h⟩).section_name) ∧
    (∀ (st : AgentTools.AgentSession) (db : AgentTools.AgentDB) (section_name : String)
        (h : st.current_clause_index < st.current_clauses.length),
        (st.current_clauses.get ⟨st.current_clause_index, h⟩).type
            = AgentTools.ClauseType.OPTIONAL →
        (st.current_clauses.get ⟨st.current_clause_index, h⟩).section_name ≠ section_name →
        (AgentTools.skip_optional_clause st db section_name).1
          = "❌ Section name mismatch. Expected: "
            ++ (st.current_clauses.get ⟨st.current_clause_index, h⟩).section_name) ∧
    (∀ st : AgentTools.AgentSession,
        (AgentTools.proceed_to_next_clause st).2.current_clause_index
          = st.current_clause_index + 1) := by
  refine ⟨?_, ?_, ?_, ?_⟩
  · intro st db section_name
    unfold AgentTools.skip_optional_clause
    split
    · dsimp only
      split
      · rfl
      · split
        · rfl
        · rfl
    · rfl
  · intro st db section_name h hm
    unfold AgentTools.skip_optional_clause
    rw [dif_pos h, if_pos hm]
  · intro st db section_name h ho hmm
    unfold AgentTools.skip_optional_clause
    rw [dif_pos h, if_neg (by simpa using ho), if_pos hmm]
  · intro st
    unfold AgentTools.proceed_to_next_clause
    dsimp only
    split
    · rfl
    · rfl

/-- C8 witness: the amended theorem at concrete sessions — skip of a
mandatory clause fails and mutates nothing, a mismatching section name fails,
and `proceed_to_next_clause` increments the index. -/
theorem C8_witness :
    (AgentTools.skip_optional_clause Examples.stM Examples.adb "M1").2
      = (Examples.stM, Examples.adb) ∧
    (AgentTools.skip_optional_clause Examples.stM Examples.adb "M1").1
      = "❌ Cannot skip mandatory clause: M1" ∧
    (AgentTools.skip_optional_clause Examples.stO Examples.adb "Wrong").1
      = "❌ Section name mismatch. Expected: Opt1" ∧
    (AgentTools.proceed_to_next_clause Examples.stO).2.current_clause_index
      = Examples.stO.current_clause_index + 1 :=
  ⟨C8_theorem.1 Examples.stM Examples.adb "M1",
   C8_theorem.2.1 Examples.stM Examples.adb "M1" (by decide) (by decide),
   C8_theorem.2.2.1 Examples.stO Examples.adb "Wrong" (by decide) (by decide) (by decide),
   C8_theorem.2.2.2 Examples.stO⟩

/-- C9: an answer failing validation makes `process_clause_response` return
the validation alert carrying the failing rule's message, and it mutates
neither the session (cursor) nor the database (content gains no key), so the
same clause is re-prompted. -/
theorem C9_theorem
    (rmatch : String → String → Bool) (st : AgentTools.AgentSession)
    (db : AgentTools.AgentDB) (user_response now : String) (doc_id : Nat)
    (hid : st.current_document_id = some doc_id) (hpos : doc_id ≠ 0)
    (h : st.current_clause_index < st.current_clauses.length)
    (m : String)
    (hv : validate_response rmatch user_response
        (st.current_clauses.get ⟨st.current_clause_index, h⟩).alert_conditions
      = ⟨false, m⟩) :
    AgentTools.process_clause_response rmatch st db user_response now =
      ("\n⚠️ **Validation Alert**\n\n" ++ m
        ++ "\n\nPlease provide a corrected response for: **"
        ++ (st.current_clauses.get ⟨st.current_clause_index, h⟩).section_name
        ++ "**\n\n" ++ (st.current_clauses.get ⟨st.current_clause_index, h⟩).system_prompt
        ++ "\n", st, db) := by
  simp only [AgentTools.process_clause_response, hid, AgentTools.py_truthy_id]
  rw [if_neg (by simp [hpos]), dif_pos h]
  simp only [hv]
  simp

/-- C9 witness: the theorem applied to the session whose current clause
carries a `min_length 10` rule and the five-character-short answer "x": the
alert string is returned and session and database are returned unchanged. -/
theorem C9_witness :
    AgentTools.process_clause_response (fun _ _ => false) Examples.stV Examples.adb "x" "t0"
      = ("\n⚠️ **Validation Alert**\n\nToo short\n\nMinimum length required: 10 characters\n\nPlease provide a corrected response for: **V1**\n\npv\n",
         Examples.stV, Examples.adb) :=
  C9_theorem (fun _ _ => false) Examples.stV Examples.adb "x" "t0" 3 rfl (by decide)
    (by decide) "Too short\n\nMinimum length required: 10 characters" rfl

/-- C10: `_validate_response` evaluates the alert conditions in declaration
order and short-circuits on the first failing one, whose message alone is
returned; an empty condition set is trivially valid; and on the rule list
[MinLength 10, ContainsForbiddenWords ["x"]] with input "x" only the
MinLength message is produced. -/
theorem C10_theorem :
    (∀ (rmatch : String → String → Bool) (response condition_name : String)
        (cond : AlertCond) (rest : List (String × AlertCond)) (m : String),
        check_condition rmatch condition_name response (pyStrip (pyLower response)) cond
          = some m →
        validate_response rmatch response ((condition_name, cond) :: rest)
          = ⟨false, m⟩) ∧
    (∀ (rmatch : String → String → Bool) (response : String),
        validate_response rmatch response [] = ⟨true, ""⟩) ∧
    (∀ rmatch : String → String → Bool,
        validate_response rmatch "x"
            [("r1", AlertCond.min_length 10 (some "M1")),
             ("r2", AlertCond.contains_forbidden_words ["x"] (some "M2"))]
          = ⟨false, "M1\n\nMinimum length required: 10 characters"⟩) := by
  refine ⟨?_, ?_, ?_⟩
  · intro rmatch response condition_name cond rest m hfail
    simp [validate_response, run_alert_conditions, hfail]
  · intro rmatch response
    rfl
  · intro rmatch
    rfl

/-- C10 witness: the short-circuit part of the theorem applied to the
concrete two-rule list of the claim. -/
theorem C10_witness :
    validate_response (fun _ _ => false) "x"
        [("r1", AlertCond.min_length 10 (some "M1")),
         ("r2", AlertCond.contains_forbidden_words ["x"] (some "M2"))]
      = ⟨false, "M1\n\nMinimum length required: 10 characters"⟩ :=
  C10_theorem.1 (fun _ _ => false) "x" "r1" (AlertCond.min_length 10 (some "M1"))
    [("r2", AlertCond.contains_forbidden_words ["x"] (some "M2"))]
    "M1\n\nMinimum length required: 10 characters" rfl
